import Mathlib

/-!
Shallow embedding of the media ingestion pipeline of the `artist` repository
(`backend/media_manager.py`, `backend/storage_backends.py`,
`backend/eddits_portal/storage_backends.py`), together with theorems settling
the frozen claims about it.

Modelling conventions:
* Python dicts with a fixed key set become Lean structures; keys that are only
  sometimes present (`width`, `height` in `file_info`) become `Option` fields.
* An uploaded file object is modelled by `PyFile`.  Its read cursor `pos` is
  explicit state: `validate_file` returns the updated file alongside the
  result, mirroring the side effect of `Image.open` / `file.seek(0)`.
* PIL images are modelled by `PILImage`: a mode tag, dimensions, and a pixel
  list.  Pixels are stored as RGBA quadruples with palette entries already
  resolved (for mode `P`) and grey replicated across r,g,b (for `L`/`LA`);
  the mode tag governs which channels an operation consults.  PIL's exact
  per-channel rounding in blends is abstracted to `(bg*(255-a) + fg*a)/255`.
* Fresh UUIDs and the current clock are nondeterministic inputs of the Python
  code; they appear as explicit parameters (`u : String`, `now : DateParts`).
* The storage backend and the fallible watermark-rendering internals (font
  loading, text metrics: `media_manager.py` lines 117-157) are environment
  parameters in `Env`; the control flow around them is embedded exactly.
-/

namespace Artist

/-! ## PIL image model -/

/-- PIL colour modes that can reach this pipeline (the supported input
formats JPEG/PNG/WEBP/BMP decode to one of these). -/
inductive Mode where
  | RGB | RGBA | LA | P | L
deriving DecidableEq, Repr

/-- An RGBA pixel; channels range over 0..255. -/
structure Pixel where
  r : Nat
  g : Nat
  b : Nat
  a : Nat
deriving DecidableEq, Repr

/-- A decoded PIL image: mode tag, dimensions, and pixel data (row-major).
Palette (`P`) pixels are stored already resolved through the palette to RGBA;
grey modes store the grey value replicated across r, g, b. -/
structure PILImage where
  mode : Mode
  width : Nat
  height : Nat
  px : List Pixel
deriving DecidableEq, Repr

/-- One blended channel of PIL's paste-with-mask: background weighted by
`255 - a`, foreground by `a`. -/
def blend (bg fg a : Nat) : Nat :=
  (bg * (255 - a) + fg * a) / 255

/-- `img.convert('RGBA')` on a `P` image: pixels are stored palette-resolved,
so only the mode tag changes. -/
def convertRGBA (img : PILImage) : PILImage :=
  { img with mode := Mode.RGBA }

/-- `img.convert('RGB')`: drop the alpha channel (no compositing). -/
def convertRGB (img : PILImage) : PILImage :=
  { img with mode := Mode.RGB,
             px := img.px.map fun p => { p with a := 255 } }

/-- `background.paste(img, mask=alpha)` where `background` is an opaque white
RGB image of the same size: each channel is blended towards white by the
foreground pixel's alpha; the result is the (RGB) background image. -/
def pasteOnWhiteWithAlphaMask (img : PILImage) : PILImage :=
  { img with mode := Mode.RGB,
             px := img.px.map fun p =>
               ⟨blend 255 p.r p.a, blend 255 p.g p.a, blend 255 p.b p.a, 255⟩ }

/-- `background.paste(img, mask=None)`: the foreground is converted to the
background's RGB mode (alpha dropped, not consulted) and pasted wholesale,
covering the white background completely. -/
def pasteOnWhiteNoMask (img : PILImage) : PILImage :=
  { img with mode := Mode.RGB,
             px := img.px.map fun p => { p with a := 255 } }

/-! ## Files, settings, environment -/

/-- An uploaded file object (`InMemoryUploadedFile`-like).  `image` is the
result of `Image.open`: `none` when decoding fails.  `readAdvance` is the
cursor position a decode attempt leaves the file at (PIL reads from the
stream whether or not decoding succeeds). -/
structure PyFile where
  name : String
  size : Nat
  pos : Nat
  image : Option PILImage
  readAdvance : Nat
deriving DecidableEq, Repr

/-- The Django settings consulted by the pipeline. -/
structure Settings where
  watermarkEnabled : Bool
  storageType : String
deriving Repr

/-- External collaborators of the pipeline: the fallible watermark-rendering
internals (`media_manager.py` lines 117-157: font loading, text metrics,
overlay compositing — dependent on the font subsystem, so modelled as an
abstract fallible image transformer), the JPEG encoder's output length, and
the storage backend's upload/signing behaviour. -/
structure Env where
  settings : Settings
  renderWatermark : PILImage → Except String PILImage
  jpegEncodedLen : PILImage → Nat
  backendUploadOk : String → Bool
  backendSignedUrl : String → String

/-! ## Validator (`MediaManager.validate_file`) -/

/-- `self.max_file_size = 100 * 1024 * 1024` (100MB). -/
def max_file_size : Nat := 100 * 1024 * 1024

/-- `self.max_image_size = (4096, 4096)`. -/
def max_image_size : Nat × Nat := (4096, 4096)

/-- `self.supported_video_formats`. -/
def supported_video_formats : List String := ["mp4", "mov", "avi", "mkv", "webm"]

/-- The image extensions accepted by `validate_file` (line 55). -/
def supported_image_extensions : List String := ["jpg", "jpeg", "png", "webp", "bmp"]

/-- `os.path.splitext(name)[1]` for a plain (directory-free) filename:
the suffix starting at the last dot, where dots at the very start of the
name do not begin an extension. -/
def splitextExt (name : String) : String :=
  let cs := name.toList
  let lead := (cs.takeWhile (fun c => c = '.')).length
  let rest := cs.drop lead
  let extLen := (rest.reverse.takeWhile (fun c => c ≠ '.')).length
  if extLen < rest.length then
    String.mk (rest.drop (rest.length - extLen - 1))
  else ""

/-- `s.lower()`: lowercase every character (ASCII data). -/
def pyLower (s : String) : String := String.mk (s.data.map Char.toLower)

/-- `s.lstrip('.')`. -/
def lstripDots (s : String) : String :=
  String.mk (s.toList.dropWhile (fun c => c = '.'))

/-- `s.startswith(pre)`. -/
def pyStartswith (s pre : String) : Bool :=
  pre.data.isPrefixOf s.data

/-- `mimetypes.guess_type(name)[0]`: a MIME type looked up from the
lowercased filename extension (the stdlib table restricted to the
extensions this pipeline can meet). -/
def guessType (name : String) : Option String :=
  match lstripDots (pyLower (splitextExt name)) with
  | "jpg" => some "image/jpeg"
  | "jpeg" => some "image/jpeg"
  | "png" => some "image/png"
  | "webp" => some "image/webp"
  | "bmp" => some "image/bmp"
  | "gif" => some "image/gif"
  | "mp4" => some "video/mp4"
  | "mov" => some "video/quicktime"
  | "avi" => some "video/x-msvideo"
  | "mkv" => some "video/x-matroska"
  | "webm" => some "video/webm"
  | "exe" => some "application/x-msdownload"
  | "txt" => some "text/plain"
  | _ => none

/-- The `file_info` dict built by `validate_file` (lines 44-51, 71-72).
`width`/`height` are present only when the image branch opened the file. -/
structure FileInfo where
  name : String
  size : Nat
  extension : String
  mime_type : Option String
  is_image : Bool
  is_video : Bool
  width : Option Nat
  height : Option Nat
deriving DecidableEq, Repr

/-- The `validation_result` dict. -/
structure ValidationResult where
  is_valid : Bool
  errors : List String
  file_info : FileInfo
deriving DecidableEq, Repr

/-- The size-limit error message of line 38 (for the default configuration
`max_file_size / (1024*1024)` is exactly 100, printed as `100.0`). -/
def sizeErrorMsg : String :=
  "File size exceeds maximum limit of " ++ toString (max_file_size / (1024 * 1024)) ++ ".0MB"

/-- Line 41: `os.path.splitext(file.name)[1].lower().lstrip('.')`. -/
def file_extension_of (name : String) : String :=
  lstripDots (pyLower (splitextExt name))

/-- Line 49: `mime_type and mime_type.startswith('image/')` (as a truth
value). -/
def is_image_of (name : String) : Bool :=
  match guessType name with
  | some m => pyStartswith m "image/"
  | none => false

/-- Line 50: `mime_type and mime_type.startswith('video/')` (as a truth
value). -/
def is_video_of (name : String) : Bool :=
  match guessType name with
  | some m => pyStartswith m "video/"
  | none => false

/-- Lines 53-64: the error messages the file-type check appends. -/
def typeErrors_of (name : String) : List String :=
  if is_image_of name then
    if file_extension_of name ∉ supported_image_extensions then
      ["Unsupported image format: " ++ file_extension_of name]
    else []
  else if is_video_of name then
    if file_extension_of name ∉ supported_video_formats then
      ["Unsupported video format: " ++ file_extension_of name]
    else []
  else ["File must be an image or video"]

/-- Lines 35-38: the error messages the size check appends. -/
def sizeErrors_of (size : Nat) : List String :=
  if size > max_file_size then [sizeErrorMsg] else []

/-- The `file_info` dict as first assigned on lines 44-51. -/
def fileInfo_of (file : PyFile) : FileInfo :=
  { name := file.name, size := file.size,
    extension := file_extension_of file.name,
    mime_type := guessType file.name,
    is_image := is_image_of file.name, is_video := is_video_of file.name,
    width := none, height := none }

/-- Lines 74-76: the dimension-check error messages. -/
def dimErrors_of (img : PILImage) : List String :=
  if img.width > max_image_size.1 ∨ img.height > max_image_size.2 then
    ["Image dimensions exceed maximum size of " ++
      toString max_image_size.1 ++ "x" ++ toString max_image_size.2]
  else []

/-- `MediaManager.validate_file` (lines 26-89).  Returns the result together
with the file in its post-call cursor state: `file.seek(0)` (line 79) runs
only in the successful image-decode branch; a failed `Image.open` leaves the
cursor where the decode attempt's reads put it; every other path never
touches the stream. -/
def validate_file (file : PyFile) : ValidationResult × PyFile :=
  if is_image_of file.name = true ∧
      (¬ file.size > max_file_size ∧ typeErrors_of file.name = []) then
    match file.image with
    | some img =>
      (⟨decide (dimErrors_of img = []),
        sizeErrors_of file.size ++ typeErrors_of file.name ++ dimErrors_of img,
        { fileInfo_of file with width := some img.width, height := some img.height }⟩,
       { file with pos := 0 })
    | none =>
      (⟨false,
        sizeErrors_of file.size ++ typeErrors_of file.name ++
          ["Invalid image file: cannot identify image file"],
        fileInfo_of file⟩,
       { file with pos := file.readAdvance })
  else
    (⟨decide (¬ file.size > max_file_size ∧ typeErrors_of file.name = []),
      sizeErrors_of file.size ++ typeErrors_of file.name, fileInfo_of file⟩,
     file)

/-! ## Path generation (`MediaManager.generate_file_path`) -/

/-- The `datetime.now()` components the path generator reads. -/
structure DateParts where
  year : Nat
  month : Nat
deriving DecidableEq, Repr

/-- `f"{month:02d}"` for months 1..12. -/
def month2 (m : Nat) : String :=
  if m < 10 then "0" ++ toString m else toString m

/-- `MediaManager.generate_file_path` (lines 91-108).  The clock and the
fresh UUID (rendered as its canonical 36-character string) are explicit
inputs.  The `event_id` segment is appended only when `event_id` is truthy
(`if event_id:`, line 103): `None` and the empty string are skipped. -/
def generate_file_path (now : DateParts) (u : String) (file_name : String)
    (event_id : Option String) (file_type : String) : String :=
  let file_extension := pyLower (splitextExt file_name)
  let unique_filename := u ++ file_extension
  let path_parts : List String :=
    [toString now.year, month2 now.month] ++
    (match event_id with
     | some e => if e ≠ "" then [e] else []
     | none => []) ++
    [file_type, unique_filename]
  String.intercalate "/" path_parts

/-! ## Processor (`MediaManager.add_watermark`, `MediaManager.process_image`) -/

/-- `MediaManager.add_watermark` (lines 110-161): when watermarking is
disabled, the image is returned untouched; otherwise the fallible rendering
internals run under `try/except`, and on any exception the original image is
returned (the error is only logged). -/
def add_watermark (env : Env) (image : PILImage) : PILImage :=
  if ¬ env.settings.watermarkEnabled then image
  else
    match env.renderWatermark image with
    | Except.ok watermarked => watermarked
    | Except.error _ => image

/-- The dict returned by `process_image`. -/
structure ProcessedResult where
  processed_image : PILImage
  width : Nat
  height : Nat
  format : String
deriving DecidableEq, Repr

/-- `MediaManager.process_image` (lines 163-195).  A failed decode raises
(`Except.error`); otherwise: modes RGBA/LA/P are pasted onto an opaque white
RGB background — with the alpha band as mask only when the mode is RGBA
after the `P → RGBA` conversion (line 173), so LA is pasted without a
mask — then the (pre-watermark) dimensions are recorded, the watermark step
runs, and the image is converted to RGB. -/
def process_image (env : Env) (file : PyFile) (addWm : Bool := true) :
    Except String ProcessedResult :=
  match file.image with
  | none => Except.error "Image processing failed: cannot identify image file"
  | some img0 =>
    let img1 :=
      if img0.mode = Mode.RGBA ∨ img0.mode = Mode.LA ∨ img0.mode = Mode.P then
        let imgc := if img0.mode = Mode.P then convertRGBA img0 else img0
        if imgc.mode = Mode.RGBA then pasteOnWhiteWithAlphaMask imgc
        else pasteOnWhiteNoMask imgc
      else img0
    let original_width := img1.width
    let original_height := img1.height
    let img2 := if addWm then add_watermark env img1 else img1
    let img3 := convertRGB img2
    Except.ok ⟨img3, original_width, original_height, "JPEG"⟩

/-! ## Orchestrator (`MediaManager.upload_file`, `MediaManager.bulk_upload`) -/

/-- The observable interactions of one `upload_file` call with the path
generator and the storage backend, in order. -/
inductive StorageEvent where
  | genPath (path : String)
  | backendUpload (path : String)
  | signUrl (path : String)
deriving DecidableEq, Repr

/-- The result dict of `upload_file`. -/
inductive UploadOutcome where
  | success (file_path : String) (file_info : FileInfo)
      (signed_url : String) (storage_type : String)
  | failure (errors : List String)
deriving DecidableEq, Repr

/-- `MediaManager.upload_file` (lines 197-264), with the fresh UUID and the
clock as explicit inputs and the storage interactions recorded as a trace.
Validation failure returns before any path generation or backend call; for
images (with processing on) the processed image is re-encoded as JPEG and
`file_info`'s `width`/`height`/`size` are overwritten (lines 229-233), the
new `size` being the encoded byte length. -/
def upload_file (env : Env) (now : DateParts) (u : String) (file : PyFile)
    (event_id : Option String) (file_type : String := "media")
    (processFlag : Bool := true) : UploadOutcome × List StorageEvent :=
  let (validation, file1) := validate_file file
  if ¬ validation.is_valid then
    (UploadOutcome.failure validation.errors, [])
  else
    let file_info := validation.file_info
    let file_path := generate_file_path now u file.name event_id file_type
    let trace0 := [StorageEvent.genPath file_path]
    match
      (if file_info.is_image ∧ processFlag then
        match process_image env file1 with
        | Except.error e => Except.error e
        | Except.ok processed =>
          let encodedLen := env.jpegEncodedLen processed.processed_image
          Except.ok { file_info with
            width := some processed.width,
            height := some processed.height,
            size := encodedLen }
      else Except.ok file_info) with
    | Except.error e =>
      (UploadOutcome.failure ["Upload failed: " ++ e], trace0)
    | Except.ok file_info' =>
      let trace1 := trace0 ++ [StorageEvent.backendUpload file_path]
      if env.backendUploadOk file_path then
        let signed_url := env.backendSignedUrl file_path
        (UploadOutcome.success file_path file_info' signed_url env.settings.storageType,
         trace1 ++ [StorageEvent.signUrl file_path])
      else
        (UploadOutcome.failure ["Failed to upload file to storage backend"], trace1)

/-- One element of `bulk_upload`'s `successful_uploads`. -/
structure SuccessEntry where
  file_name : String
  file_path : String
  file_info : FileInfo
  signed_url : String
deriving DecidableEq, Repr

/-- One element of `bulk_upload`'s `failed_uploads`. -/
structure FailEntry where
  file_name : String
  errors : List String
deriving DecidableEq, Repr

/-- The aggregate dict returned by `bulk_upload`. -/
structure BulkResult where
  successful_uploads : List SuccessEntry
  failed_uploads : List FailEntry
  total_files : Nat
  success_count : Nat
  error_count : Nat
deriving DecidableEq, Repr

/-- The loop body of `bulk_upload` over the remaining files; `us` supplies
the fresh UUID for each successive `upload_file` call. -/
def bulk_upload_go (env : Env) (now : DateParts) (us : Nat → String)
    (event_id : Option String) (file_type : String) :
    Nat → List PyFile → List SuccessEntry × List FailEntry
  | _, [] => ([], [])
  | i, file :: rest =>
    let (outcome, _) := upload_file env now (us i) file event_id file_type
    let (succ, fail) := bulk_upload_go env now us event_id file_type (i + 1) rest
    match outcome with
    | UploadOutcome.success p fi url _ =>
      (⟨file.name, p, fi, url⟩ :: succ, fail)
    | UploadOutcome.failure errs =>
      (succ, ⟨file.name, errs⟩ :: fail)

/-- `MediaManager.bulk_upload` (lines 282-311): each file goes through the
single-file `upload_file` independently; outcomes are appended in input
order and counted. -/
def bulk_upload (env : Env) (now : DateParts) (us : Nat → String)
    (files : List PyFile) (event_id : Option String)
    (file_type : String := "media") : BulkResult :=
  let (succ, fail) := bulk_upload_go env now us event_id file_type 0 files
  { successful_uploads := succ, failed_uploads := fail,
    total_files := files.length,
    success_count := succ.length, error_count := fail.length }

/-! ## Storage backend selection -/

/-- The classes `get_storage_backend` (in `backend/storage_backends.py`) can
instantiate. -/
inductive Backend where
  | S3MediaStorage | GCPMediaStorage | LocalMediaStorage
deriving DecidableEq, Repr

/-- `get_storage_backend` (`backend/storage_backends.py` lines 183-192):
branches on the `STORAGE_TYPE` setting being `'aws'` or `'gcp'`; everything
else falls through to the local backend. -/
def get_storage_backend (storage_type : String) : Backend :=
  if storage_type = "aws" then Backend.S3MediaStorage
  else if storage_type = "gcp" then Backend.GCPMediaStorage
  else Backend.LocalMediaStorage

/-- The classes `MediaStorage.__new__` (in
`backend/eddits_portal/storage_backends.py`) can instantiate. -/
inductive PortalBackend where
  | S3MediaStorage | GCSMediaStorage | FileSystemStorage
deriving DecidableEq, Repr

/-- `MediaStorage.__new__` (`backend/eddits_portal/storage_backends.py`
lines 12-22): `'s3'` and `'do'` select the S3-compatible backend, `'gcs'`
the GCS backend, anything else the local filesystem backend. -/
def MediaStorage_new (storage_type : String) : PortalBackend :=
  if storage_type = "s3" ∨ storage_type = "do" then PortalBackend.S3MediaStorage
  else if storage_type = "gcs" then PortalBackend.GCSMediaStorage
  else PortalBackend.FileSystemStorage

/-! ## Spec-side definitions (for refinement-style claims) -/

/-- Spec-side: alpha-compositing one pixel onto an opaque white background
("normalizes any palette or alpha-channel image onto an opaque white
background (alpha-composited)"). -/
def whiteCompositePixel (p : Pixel) : Pixel :=
  ⟨blend 255 p.r p.a, blend 255 p.g p.a, blend 255 p.b p.a, 255⟩

/-- Spec-side: splitting a character list at every occurrence of `sep`
(the semantics of splitting a path into its `/`-separated segments). -/
def splitSep (sep : Char) : List Char → List (List Char)
  | [] => [[]]
  | c :: cs =>
    if c = sep then [] :: splitSep sep cs
    else
      match splitSep sep cs with
      | s :: rest => (c :: s) :: rest
      | [] => [[c]]

/-- Spec-side: the `/`-separated segments of a storage path. -/
def pathSegments (p : String) : List String :=
  (splitSep '/' p.data).map String.mk

/-- Spec-side: the character class `[0-9a-f-]` of the claimed UUID regex. -/
def uuidChar (c : Char) : Bool :=
  c.isDigit || ('a' ≤ c && c ≤ 'f') || c = '-'

/-- Spec-side: a string of decimal digits (`\d*`). -/
def isDigits (s : String) : Prop :=
  ∀ c ∈ s.data, c.isDigit = true

/-! ## Concrete fixtures (used to instantiate the theorems) -/

/-- A deployment with watermarking disabled, local storage, a JPEG encoder
producing 800-byte output, and a backend that accepts every upload. -/
def envStd : Env :=
  ⟨⟨false, "local"⟩, fun i => Except.ok i, fun _ => 800,
   fun _ => true, fun p => "/media/" ++ p⟩

/-- A deployment with watermarking enabled whose rendering internals always
raise. -/
def envWmFail : Env :=
  ⟨⟨true, "local"⟩, fun _ => Except.error "watermark failure", fun _ => 800,
   fun _ => true, fun p => "/media/" ++ p⟩

/-- A 2×1 plain-RGB image. -/
def rgbImg : PILImage := ⟨Mode.RGB, 2, 1, [⟨1, 2, 3, 255⟩, ⟨4, 5, 6, 255⟩]⟩

/-- A 1×1 RGBA image with a half-transparent pixel. -/
def rgbaImg : PILImage := ⟨Mode.RGBA, 1, 1, [⟨10, 20, 30, 128⟩]⟩

/-- A 1×1 grey+alpha (`LA`) image whose only pixel is fully transparent. -/
def laImg : PILImage := ⟨Mode.LA, 1, 1, [⟨50, 50, 50, 0⟩]⟩

/-- A 1000-byte JPEG upload decoding to `rgbImg`. -/
def jpgFile : PyFile := ⟨"a.jpg", 1000, 0, some rgbImg, 7⟩

/-- A PNG upload decoding to the transparent-pixel `LA` image. -/
def laFile : PyFile := ⟨"c.png", 10, 0, some laImg, 3⟩

/-- A PNG upload decoding to the half-transparent RGBA image. -/
def rgbaFile : PyFile := ⟨"b.png", 500, 0, some rgbaImg, 5⟩

/-- A small video upload (never decoded as an image). -/
def vidFile : PyFile := ⟨"a.mp4", 100, 0, none, 0⟩

/-- A file that is neither image nor video. -/
def exeFile : PyFile := ⟨"b.exe", 100, 0, none, 0⟩

/-- A stream of distinct UUID strings for bulk uploads. -/
def uuidStream : Nat → String := fun i => "u" ++ toString i

/-- The condition under which `validate_file` reaches the `Image.open`
branch (line 67): the size check passed, the MIME type classifies the file
as an image, and its extension is an accepted image extension (so no type
error was recorded before the branch). -/
def entersImageBranch (file : PyFile) : Prop :=
  file.size ≤ max_file_size ∧
  is_image_of file.name = true ∧
  file_extension_of file.name ∈ supported_image_extensions

/-- Spec-side: the claim's regex
`^\d{4}/\d{2}/E1/photo/[0-9a-f-]{36}\.jpg$` — the path splits into exactly
the five segments, with a four-digit year, a two-digit month, the literals
`E1` and `photo`, and a 36-character `[0-9a-f-]` basename with extension
`.jpg`. -/
def matchesC8Regex (p : String) : Prop :=
  ∃ y2 m2 u2 : String,
    pathSegments p = [y2, m2, "E1", "photo", u2 ++ ".jpg"] ∧
    y2.length = 4 ∧ isDigits y2 ∧
    m2.length = 2 ∧ isDigits m2 ∧
    u2.length = 36 ∧ u2.data.all uuidChar = true

end Artist



namespace Artist

theorem toDigitsCore_acc (b f : Nat) :
    ∀ (n : Nat) (acc : List Char),
      Nat.toDigitsCore b f n acc = Nat.toDigitsCore b f n [] ++ acc := by
  induction f with
  | zero => intro n acc; simp [Nat.toDigitsCore]
  | succ f ih =>
    intro n acc
    simp only [Nat.toDigitsCore]
    by_cases h : n / b = 0
    · simp [h]
    · simp only [h, if_false]
      rw [ih (n / b) (Nat.digitChar (n % b) :: acc), ih (n / b) [Nat.digitChar (n % b)]]
      simp

theorem toDigitsCore_fuel (b : Nat) (hb : 2 ≤ b) :
    ∀ (n f1 f2 : Nat), n < f1 → n < f2 →
      Nat.toDigitsCore b f1 n [] = Nat.toDigitsCore b f2 n [] := by
  intro n
  induction n using Nat.strong_induction_on with
  | _ n ih =>
    intro f1 f2 h1 h2
    obtain ⟨g1, rfl⟩ : ∃ k, f1 = k + 1 := ⟨f1 - 1, by omega⟩
    obtain ⟨g2, rfl⟩ : ∃ k, f2 = k + 1 := ⟨f2 - 1, by omega⟩
    simp only [Nat.toDigitsCore]
    by_cases h : n / b = 0
    · simp [h]
    · simp only [h, if_false]
      have hn : 0 < n := by
        rcases Nat.eq_zero_or_pos n with h0 | h0
        · exfalso; apply h; simp [h0]
        · exact h0
      have hd : n / b < n := Nat.div_lt_self hn (by omega)
      rw [toDigitsCore_acc b g1, toDigitsCore_acc b g2,
        ih (n / b) hd g1 g2 (by omega) (by omega)]

theorem toDigits_eq_of_lt (n : Nat) (h : n < 10) :
    Nat.toDigits 10 n = [Nat.digitChar n] := by
  simp [Nat.toDigits, Nat.toDigitsCore, Nat.div_eq_of_lt h, Nat.mod_eq_of_lt h]

theorem toDigits_eq_of_ge (n : Nat) (h : 10 ≤ n) :
    Nat.toDigits 10 n = Nat.toDigits 10 (n / 10) ++ [Nat.digitChar (n % 10)] := by
  have h0 : ¬ (n / 10 = 0) := by omega
  show Nat.toDigitsCore 10 (n + 1) n [] = _
  simp only [Nat.toDigitsCore, h0, if_false]
  rw [toDigitsCore_acc]
  have hd : n / 10 < n := Nat.div_lt_self (by omega) (by omega)
  rw [toDigitsCore_fuel 10 (by omega) (n / 10) n (n / 10 + 1) (by omega) (by omega)]
  rfl

theorem digitChar_isDigit (n : Nat) (h : n < 10) : (Nat.digitChar n).isDigit = true := by
  interval_cases n <;> decide

theorem toDigits_all_isDigit (n : Nat) : ∀ c ∈ Nat.toDigits 10 n, c.isDigit = true := by
  induction n using Nat.strong_induction_on with
  | _ n ih =>
    by_cases h : n < 10
    · rw [toDigits_eq_of_lt n h]
      intro c hc
      simp at hc
      subst hc
      exact digitChar_isDigit n h
    · rw [toDigits_eq_of_ge n (by omega)]
      intro c hc
      rcases List.mem_append.1 hc with h1 | h2
      · exact ih (n / 10) (Nat.div_lt_self (by omega) (by omega)) c h1
      · simp at h2
        subst h2
        exact digitChar_isDigit _ (Nat.mod_lt _ (by omega))

theorem repr_data (n : Nat) : (Nat.repr n).data = Nat.toDigits 10 n := rfl

theorem repr_isDigit (n : Nat) : ∀ c ∈ (Nat.repr n).data, c.isDigit = true := by
  rw [repr_data]; exact toDigits_all_isDigit n

theorem repr_length_four {y : Nat} (h1 : 1000 ≤ y) (h2 : y ≤ 9999) :
    (Nat.repr y).length = 4 := by
  show (Nat.repr y).data.length = 4
  rw [repr_data, toDigits_eq_of_ge y (by omega),
    toDigits_eq_of_ge (y / 10) (by omega),
    toDigits_eq_of_ge (y / 10 / 10) (by omega),
    toDigits_eq_of_lt (y / 10 / 10 / 10) (by omega)]
  simp

theorem isDigit_ne_slash {c : Char} (h : c.isDigit = true) : c ≠ '/' := by
  intro he
  subst he
  simp [Char.isDigit] at h

theorem toLower_ne_slash {c : Char} (hc : c ≠ '/') : c.toLower ≠ '/' := by
  by_cases h : c.toNat ≥ 65 ∧ c.toNat ≤ 90
  · have hl : c.toLower = Char.ofNat (c.toNat + 32) := by
      unfold Char.toLower; simp [h]
    rw [hl]
    intro he
    have hv : (c.toNat + 32).isValidChar := Or.inl (by omega)
    rw [Char.ofNat, dif_pos hv] at he
    have h2 := congrArg (fun x : Char => x.val.toNat) he
    simp [Char.ofNatAux, UInt32.toNat] at h2
    omega
  · have hl : c.toLower = c := by unfold Char.toLower; simp [h]
    rw [hl]; exact hc

end Artist

namespace Artist

theorem intercalate_go_data (sep : String) :
    ∀ (ss : List String) (acc : String),
      (String.intercalate.go acc sep ss).data =
        acc.data ++ (ss.map (fun s => sep.data ++ s.data)).flatten := by
  intro ss
  induction ss with
  | nil => intro acc; simp [String.intercalate.go]
  | cons a as ih =>
    intro acc
    simp [String.intercalate.go, ih, List.append_assoc]

theorem intercalate_data (sep a : String) (as : List String) :
    (String.intercalate sep (a :: as)).data =
      a.data ++ (as.map (fun s => sep.data ++ s.data)).flatten := by
  simp [String.intercalate, intercalate_go_data]

theorem splitSep_no_sep {sep : Char} :
    ∀ {l : List Char}, sep ∉ l → splitSep sep l = [l] := by
  intro l
  induction l with
  | nil => intro _; rfl
  | cons c cs ih =>
    intro h
    have hc : ¬ (c = sep) := fun he => h (he ▸ List.mem_cons_self c cs)
    have hcs : sep ∉ cs := fun hm => h (List.mem_cons_of_mem c hm)
    simp [splitSep, hc, ih hcs]

theorem splitSep_append {sep : Char} :
    ∀ {xs : List Char} (ys : List Char), sep ∉ xs →
      splitSep sep (xs ++ sep :: ys) = xs :: splitSep sep ys := by
  intro xs
  induction xs with
  | nil => intro ys _; simp [splitSep]
  | cons x xs ih =>
    intro ys h
    have hx : ¬ (x = sep) := fun he => h (he ▸ List.mem_cons_self x xs)
    have hxs : sep ∉ xs := fun hm => h (List.mem_cons_of_mem x hm)
    simp [splitSep, hx, ih ys hxs]

theorem splitSep_join (sep : Char) :
    ∀ (as : List (List Char)) (a : List Char), sep ∉ a → (∀ l ∈ as, sep ∉ l) →
      splitSep sep (a ++ (as.map (fun l => sep :: l)).flatten) = a :: as := by
  intro as
  induction as with
  | nil => intro a ha _; simp [splitSep_no_sep ha]
  | cons b bs ih =>
    intro a ha hbs
    have : a ++ ((b :: bs).map (fun l => sep :: l)).flatten =
        a ++ sep :: (b ++ (bs.map (fun l => sep :: l)).flatten) := by simp
    rw [this, splitSep_append _ ha,
      ih b (hbs b (List.mem_cons_self b bs)) (fun l hl => hbs l (List.mem_cons_of_mem b hl))]

theorem mk_data (s : String) : String.mk s.data = s := rfl

theorem map_mk_data (l : List String) : l.map (String.mk ∘ String.data) = l := by
  induction l with
  | nil => rfl
  | cons x xs ih => simp only [List.map_cons, Function.comp_apply, mk_data, ih]

theorem pathSegments_intercalate (a : String) (as : List String)
    (ha : '/' ∉ a.data) (has : ∀ s ∈ as, '/' ∉ s.data) :
    pathSegments (String.intercalate "/" (a :: as)) = a :: as := by
  unfold pathSegments
  rw [intercalate_data]
  have h1 : (as.map (fun s => ("/" : String).data ++ s.data)) =
      (as.map String.data).map (fun l => '/' :: l) := by
    simp [List.map_map]
  rw [h1, splitSep_join '/' (as.map String.data) a.data ha
    (by intro l hl; rcases List.mem_map.1 hl with ⟨s, hs, rfl⟩; exact has s hs)]
  simp only [List.map_cons, List.map_map, mk_data]
  congr 1
  exact map_mk_data as

end Artist

namespace Artist

theorem toString_nat (n : Nat) : toString n = Nat.repr n := rfl

theorem repr_slash_free (n : Nat) : '/' ∉ (Nat.repr n).data :=
  fun hm => isDigit_ne_slash (repr_isDigit n _ hm) rfl

theorem month2_isDigit (m : Nat) : ∀ c ∈ (month2 m).data, c.isDigit = true := by
  unfold month2
  by_cases h : m < 10
  · simp only [h, if_true]
    intro c hc
    rw [String.data_append] at hc
    rcases List.mem_append.1 hc with h1 | h2
    · simp at h1; subst h1; decide
    · exact repr_isDigit m c h2
  · simp only [h, if_false]
    exact repr_isDigit m

theorem month2_slash_free (m : Nat) : '/' ∉ (month2 m).data :=
  fun hm => isDigit_ne_slash (month2_isDigit m _ hm) rfl

theorem month2_length_two (m : Nat) (h1 : 1 ≤ m) (h2 : m ≤ 12) :
    (month2 m).length = 2 := by
  interval_cases m <;> decide

theorem toList_data (s : String) : s.toList = s.data := rfl

theorem ext_mem_name {name : String} {c : Char} (hc : c ∈ (splitextExt name).data) :
    c ∈ name.data := by
  unfold splitextExt at hc
  simp only [toList_data] at hc
  split at hc
  · have h1 := List.drop_subset _ _ hc
    exact List.drop_subset _ _ h1
  · simp at hc

theorem ext_slash_free {name : String} (h : '/' ∉ name.data) :
    '/' ∉ (pyLower (splitextExt name)).data := by
  unfold pyLower
  intro hm
  rcases List.mem_map.1 hm with ⟨c, hc, he⟩
  exact toLower_ne_slash (fun he2 => h (he2 ▸ ext_mem_name hc)) he

theorem uuidChar_ne_slash {c : Char} (h : uuidChar c = true) : c ≠ '/' := by
  intro he
  subst he
  exact absurd h (by decide)

theorem uuid_slash_free {s : String} (h : s.data.all uuidChar = true) :
    '/' ∉ s.data :=
  fun hm => uuidChar_ne_slash (List.all_eq_true.1 h _ hm) rfl

theorem generate_file_path_eq (now : DateParts) (u file_name : String)
    (event_id : Option String) (file_type : String) :
    generate_file_path now u file_name event_id file_type =
      String.intercalate "/"
        ([toString now.year, month2 now.month] ++
          (match event_id with
           | some e => if e ≠ "" then [e] else []
           | none => []) ++
          [file_type, u ++ pyLower (splitextExt file_name)]) := rfl

theorem generate_file_path_segments_none (now : DateParts) (u file_name file_type : String)
    (hn : '/' ∉ file_name.data) (hu : '/' ∉ u.data) (hft : '/' ∉ file_type.data) :
    pathSegments (generate_file_path now u file_name none file_type) =
      [toString now.year, month2 now.month, file_type,
        u ++ pyLower (splitextExt file_name)] := by
  rw [generate_file_path_eq]
  show pathSegments (String.intercalate "/"
    (toString now.year :: [month2 now.month, file_type,
      u ++ pyLower (splitextExt file_name)])) = _
  refine pathSegments_intercalate _ _ ?_ ?_
  · rw [toString_nat]; exact repr_slash_free now.year
  · intro s hs
    simp only [List.mem_cons, List.not_mem_nil, or_false] at hs
    rcases hs with rfl | rfl | rfl
    · exact month2_slash_free now.month
    · exact hft
    · intro hm
      rw [String.data_append] at hm
      rcases List.mem_append.1 hm with h1 | h2
      · exact hu h1
      · exact ext_slash_free hn h2

theorem generate_file_path_segments_some (now : DateParts) (u file_name file_type e : String)
    (he0 : e ≠ "") (hn : '/' ∉ file_name.data) (hu : '/' ∉ u.data)
    (hft : '/' ∉ file_type.data) (he : '/' ∉ e.data) :
    pathSegments (generate_file_path now u file_name (some e) file_type) =
      [toString now.year, month2 now.month, e, file_type,
        u ++ pyLower (splitextExt file_name)] := by
  rw [generate_file_path_eq]
  have hif : (if e ≠ "" then [e] else []) = [e] := by simp [he0]
  show pathSegments (String.intercalate "/"
    (([toString now.year, month2 now.month] ++ (if e ≠ "" then [e] else []) ++
      [file_type, u ++ pyLower (splitextExt file_name)]) : List String)) = _
  rw [hif]
  show pathSegments (String.intercalate "/"
    (toString now.year :: [month2 now.month, e, file_type,
      u ++ pyLower (splitextExt file_name)])) = _
  refine pathSegments_intercalate _ _ ?_ ?_
  · rw [toString_nat]; exact repr_slash_free now.year
  · intro s hs
    simp only [List.mem_cons, List.not_mem_nil, or_false] at hs
    rcases hs with rfl | rfl | rfl | rfl
    · exact month2_slash_free now.month
    · exact he
    · exact hft
    · intro hm
      rw [String.data_append] at hm
      rcases List.mem_append.1 hm with h1 | h2
      · exact hu h1
      · exact ext_slash_free hn h2

end Artist

namespace Artist

/-- C1 counterexample: a call with no event id yields a path of only four
segments, and no segment equals the literal string `none` — refuting the
claim that the third segment is `none` and present for every call. -/
theorem c1_no_event_counterexample :
    pathSegments (generate_file_path ⟨2026, 10⟩ "123e4567-e89b-42d3-a456-426614174000"
        "a.jpg" none "media") =
      ["2026", "10", "media", "123e4567-e89b-42d3-a456-426614174000.jpg"] ∧
    "none" ∉ pathSegments (generate_file_path ⟨2026, 10⟩
        "123e4567-e89b-42d3-a456-426614174000" "a.jpg" none "media") ∧
    (pathSegments (generate_file_path ⟨2026, 10⟩
        "123e4567-e89b-42d3-a456-426614174000" "a.jpg" none "media")).length = 4 := by
  decide

/-- C1 (amended): the generated storage path is
`{year}/{month}[/{event_id}]/{media_type}/{uuid}{ext}` — the event segment
is included only when a non-empty event id is supplied and is omitted
entirely otherwise; no `none` placeholder is ever inserted. -/
theorem c1_path_shape (now : DateParts) (u file_name file_type : String)
    (event_id : Option String)
    (hn : '/' ∉ file_name.data) (hu : '/' ∉ u.data) (hft : '/' ∉ file_type.data)
    (hev : ∀ e, event_id = some e → '/' ∉ e.data) :
    pathSegments (generate_file_path now u file_name event_id file_type) =
      [toString now.year, month2 now.month] ++
        (match event_id with
         | some e => if e ≠ "" then [e] else []
         | none => []) ++
        [file_type, u ++ pyLower (splitextExt file_name)] := by
  cases event_id with
  | none =>
    simpa using generate_file_path_segments_none now u file_name file_type hn hu hft
  | some e =>
    by_cases he0 : e = ""
    · subst he0
      have heq : generate_file_path now u file_name (some "") file_type =
          generate_file_path now u file_name none file_type := rfl
      rw [heq, generate_file_path_segments_none now u file_name file_type hn hu hft]
      simp
    · simpa [he0] using
        generate_file_path_segments_some now u file_name file_type e he0 hn hu hft
          (hev e rfl)

/-- C1 witness: the amended path shape evaluated on a concrete call with an
event id. -/
theorem c1_path_shape_witness :
    ('/' ∉ ("a.jpg" : String).data) ∧
    pathSegments (generate_file_path ⟨2026, 10⟩
        "123e4567-e89b-42d3-a456-426614174000" "a.jpg" (some "E1") "media") =
      ["2026", "10", "E1", "media", "123e4567-e89b-42d3-a456-426614174000.jpg"] :=
  ⟨by decide, by
    have h := c1_path_shape ⟨2026, 10⟩ "123e4567-e89b-42d3-a456-426614174000"
      "a.jpg" "media" (some "E1") (by decide) (by decide) (by decide)
      (by intro e he; cases he; decide)
    simpa using h⟩

/-- C2 (code bug): the repository documents the configuration vocabulary
`local`/`s3`/`gcs`/`do` (settings.py line 183) and `MediaStorage.__new__`
maps it as the claim states, but `get_storage_backend` — the selector
actually used by `MediaManager` — tests for `aws`/`gcp` instead, so every
documented cloud value silently selects the local backend. -/
theorem c2_selector_vocabulary_mismatch :
    get_storage_backend "s3" = Backend.LocalMediaStorage ∧
    get_storage_backend "do" = Backend.LocalMediaStorage ∧
    get_storage_backend "gcs" = Backend.LocalMediaStorage ∧
    get_storage_backend "local" = Backend.LocalMediaStorage ∧
    MediaStorage_new "s3" = PortalBackend.S3MediaStorage ∧
    MediaStorage_new "do" = PortalBackend.S3MediaStorage ∧
    MediaStorage_new "gcs" = PortalBackend.GCSMediaStorage ∧
    MediaStorage_new "local" = PortalBackend.FileSystemStorage := by
  decide

/-- C8: `generate_file_path("photo.JPG", event_id="E1", file_type="photo")`
yields a path matching `^\d{4}/\d{2}/E1/photo/[0-9a-f-]{36}\.jpg$` — the
extension is lowercased — and two calls whose fresh UUIDs differ yield
different paths (the clock and UUID nondeterminism are explicit inputs; the
year is assumed to render as four digits, i.e. 1000-9999). -/
theorem c8_round_trip (now : DateParts) (u u' : String)
    (hy1 : 1000 ≤ now.year) (hy2 : now.year ≤ 9999)
    (hm1 : 1 ≤ now.month) (hm2 : now.month ≤ 12)
    (hu : u.data.all uuidChar = true) (hlen : u.length = 36)
    (hu' : u'.data.all uuidChar = true) (hlen' : u'.length = 36)
    (hne : u ≠ u') :
    matchesC8Regex (generate_file_path now u "photo.JPG" (some "E1") "photo") ∧
    generate_file_path now u "photo.JPG" (some "E1") "photo" ≠
      generate_file_path now u' "photo.JPG" (some "E1") "photo" := by
  have hext : pyLower (splitextExt "photo.JPG") = ".jpg" := by decide
  have hsegs : ∀ v : String, v.data.all uuidChar = true →
      pathSegments (generate_file_path now v "photo.JPG" (some "E1") "photo") =
        [toString now.year, month2 now.month, "E1", "photo", v ++ ".jpg"] := by
    intro v hv
    rw [generate_file_path_segments_some now v "photo.JPG" "photo" "E1" (by decide)
      (by decide) (uuid_slash_free hv) (by decide) (by decide), hext]
  constructor
  · refine ⟨toString now.year, month2 now.month, u, hsegs u hu, ?_, ?_, ?_, ?_, hlen, hu⟩
    · rw [toString_nat]; exact repr_length_four hy1 hy2
    · rw [toString_nat]; intro c hc; exact repr_isDigit now.year c hc
    · exact month2_length_two now.month hm1 hm2
    · exact month2_isDigit now.month
  · intro he
    have h2 : ([toString now.year, month2 now.month, "E1", "photo", u ++ ".jpg"] :
        List String) =
        [toString now.year, month2 now.month, "E1", "photo", u' ++ ".jpg"] := by
      rw [← hsegs u hu, ← hsegs u' hu', he]
    have h3 : u ++ ".jpg" = u' ++ ".jpg" := by simpa using h2
    have h4 : u.data ++ (".jpg" : String).data = u'.data ++ (".jpg" : String).data := by
      have h5 := congrArg String.data h3
      simpa [String.data_append] using h5
    have h6 : u.data = u'.data :=
      (List.append_inj h4 (by show u.length = u'.length; rw [hlen, hlen'])).1
    exact hne (by rw [← mk_data u, ← mk_data u', h6])

/-- C8 witness: the round-trip property evaluated at a concrete date and
two concrete 36-character UUID strings. -/
theorem c8_round_trip_witness :
    (("123e4567-e89b-42d3-a456-426614174000" : String).data.all uuidChar = true) ∧
    (("123e4567-e89b-42d3-a456-426614174001" : String).data.all uuidChar = true) ∧
    ("123e4567-e89b-42d3-a456-426614174000" : String) ≠
      "123e4567-e89b-42d3-a456-426614174001" ∧
    (matchesC8Regex (generate_file_path ⟨2026, 4⟩ "123e4567-e89b-42d3-a456-426614174000"
        "photo.JPG" (some "E1") "photo") ∧
      generate_file_path ⟨2026, 4⟩ "123e4567-e89b-42d3-a456-426614174000"
          "photo.JPG" (some "E1") "photo" ≠
        generate_file_path ⟨2026, 4⟩ "123e4567-e89b-42d3-a456-426614174001"
          "photo.JPG" (some "E1") "photo") :=
  ⟨by decide, by decide, by decide,
    c8_round_trip ⟨2026, 4⟩ "123e4567-e89b-42d3-a456-426614174000"
      "123e4567-e89b-42d3-a456-426614174001" (by decide) (by decide) (by decide)
      (by decide) (by decide) (by decide) (by decide) (by decide) (by decide)⟩

end Artist
namespace Artist

theorem typeErrors_nil_of_image {name : String} (him : is_image_of name = true)
    (hext : file_extension_of name ∈ supported_image_extensions) :
    typeErrors_of name = [] := by
  simp [typeErrors_of, him, hext]

theorem image_ext_of_typeErrors_nil {name : String} (him : is_image_of name = true)
    (h : typeErrors_of name = []) :
    file_extension_of name ∈ supported_image_extensions := by
  by_contra hext
  simp [typeErrors_of, him, hext] at h

/-- C3 (amended): `validate_file` resets the read cursor to 0 only when the
size and image-type checks pass and the image decodes successfully; when the
decode fails the cursor is left wherever the failed decode attempt read to,
and on every other path the cursor is not touched at all. -/
theorem c3_cursor_restored_only_on_successful_decode (file : PyFile) :
    ((entersImageBranch file ∧ file.image.isSome) → (validate_file file).2.pos = 0) ∧
    ((entersImageBranch file ∧ file.image = none) →
      (validate_file file).2.pos = file.readAdvance) ∧
    (¬ entersImageBranch file → (validate_file file).2.pos = file.pos) := by
  refine ⟨?_, ?_, ?_⟩
  · rintro ⟨⟨hsz, him, hext⟩, himg⟩
    obtain ⟨img, hi⟩ := Option.isSome_iff_exists.1 himg
    unfold validate_file
    rw [if_pos ⟨him, by omega, typeErrors_nil_of_image him hext⟩, hi]
  · rintro ⟨⟨hsz, him, hext⟩, himg⟩
    unfold validate_file
    rw [if_pos ⟨him, by omega, typeErrors_nil_of_image him hext⟩, himg]
  · intro hnb
    unfold validate_file
    rw [if_neg]
    rintro ⟨him, hsz, htyp⟩
    exact hnb ⟨by omega, him, image_ext_of_typeErrors_nil him htyp⟩

/-- C3 witness: the amended cursor behaviour evaluated on a concrete
undecodable PNG. -/
theorem c3_cursor_witness :
    (entersImageBranch ⟨"broken.png", 100, 0, none, 42⟩ ∧
      (⟨"broken.png", 100, 0, none, 42⟩ : PyFile).image = none) ∧
    (validate_file ⟨"broken.png", 100, 0, none, 42⟩).2.pos =
      (⟨"broken.png", 100, 0, none, 42⟩ : PyFile).readAdvance :=
  ⟨by constructor
      · exact ⟨by decide, by decide, by decide⟩
      · rfl,
   (c3_cursor_restored_only_on_successful_decode ⟨"broken.png", 100, 0, none, 42⟩).2.1
     ⟨⟨by decide, by decide, by decide⟩, rfl⟩⟩

/-- C3 counterexample: a PNG whose decode fails enters validation with the
cursor at 0 and leaves it at 42 (where the failed decode stopped), refuting
the claim that the cursor is restored to 0 for every input. -/
theorem c3_cursor_counterexample :
    (validate_file ⟨"broken.png", 100, 0, none, 42⟩).2.pos = 42 ∧ (42 : Nat) ≠ 0 := by
  constructor
  · decide
  · decide

end Artist

namespace Artist

/-- C9: every file whose declared size exceeds the configured maximum
(100 MB) is rejected — `is_valid` is false and the errors contain the
size-limit message stating the limit in MB — regardless of the rest of the
file. -/
theorem c9_oversize_rejected (file : PyFile) (h : file.size > max_file_size) :
    (validate_file file).1.is_valid = false ∧
    sizeErrorMsg ∈ (validate_file file).1.errors := by
  unfold validate_file
  rw [if_neg (by rintro ⟨_, hsz, _⟩; omega)]
  constructor
  · simp [h]
  · simp [sizeErrors_of, h]

/-- C9 witness: the size-limit rejection evaluated on a file one byte over
the limit. -/
theorem c9_oversize_rejected_witness :
    (⟨"big.jpg", 100 * 1024 * 1024 + 1, 0, none, 0⟩ : PyFile).size > max_file_size ∧
    ((validate_file ⟨"big.jpg", 100 * 1024 * 1024 + 1, 0, none, 0⟩).1.is_valid = false ∧
      sizeErrorMsg ∈ (validate_file ⟨"big.jpg", 100 * 1024 * 1024 + 1, 0, none, 0⟩).1.errors) :=
  ⟨by decide, c9_oversize_rejected ⟨"big.jpg", 100 * 1024 * 1024 + 1, 0, none, 0⟩ (by decide)⟩

/-- On a validation failure, `upload_file` returns the validator's errors and
performs no storage interaction at all (shared between the C10 and C5
developments). -/
theorem upload_invalid_fails (env : Env) (now : DateParts) (u : String) (file : PyFile)
    (event_id : Option String) (file_type : String) (pf : Bool)
    (h : (validate_file file).1.is_valid = false) :
    upload_file env now u file event_id file_type pf =
      (UploadOutcome.failure (validate_file file).1.errors, []) := by
  unfold upload_file
  simp [h]

/-- C10: when validation fails, `upload_file` returns the validation
errors and the storage-interaction trace is empty — no path is generated,
no backend upload is invoked, and no signed URL is produced. -/
theorem c10_invalid_upload_untouched (env : Env) (now : DateParts) (u : String)
    (file : PyFile) (event_id : Option String) (file_type : String) (pf : Bool)
    (h : (validate_file file).1.is_valid = false) :
    upload_file env now u file event_id file_type pf =
      (UploadOutcome.failure (validate_file file).1.errors, []) :=
  upload_invalid_fails env now u file event_id file_type pf h

end Artist

namespace Artist

/-- C10 witness: the untouched-backend property evaluated on a file that
is neither image nor video. -/
theorem c10_invalid_upload_witness :
    (validate_file exeFile).1.is_valid = false ∧
    upload_file envStd ⟨2026, 10⟩ "u0" exeFile none "media" true =
      (UploadOutcome.failure (validate_file exeFile).1.errors, []) :=
  ⟨by decide,
   c10_invalid_upload_untouched envStd ⟨2026, 10⟩ "u0" exeFile none "media" true (by decide)⟩

theorem validate_valid_image_shape (file : PyFile)
    (hv : (validate_file file).1.is_valid = true)
    (him : (validate_file file).1.file_info.is_image = true) :
    ∃ img, file.image = some img ∧
      (validate_file file).1.file_info =
        { fileInfo_of file with width := some img.width, height := some img.height } ∧
      (validate_file file).2 = { file with pos := 0 } := by
  by_cases hc : is_image_of file.name = true ∧
      (¬ file.size > max_file_size ∧ typeErrors_of file.name = [])
  · unfold validate_file at hv ⊢
    rw [if_pos hc] at hv ⊢
    cases hi : file.image with
    | some img => exact ⟨img, rfl, rfl, rfl⟩
    | none => simp [hi] at hv
  · exfalso
    unfold validate_file at hv him
    rw [if_neg hc] at hv him
    simp only [fileInfo_of] at him
    exact hc ⟨him, of_decide_eq_true hv⟩

theorem process_image_ok (env : Env) (file : PyFile) (img : PILImage)
    (hi : file.image = some img) :
    ∃ r, process_image env file = Except.ok r ∧
      r.width = img.width ∧ r.height = img.height ∧ r.format = "JPEG" ∧
      r.processed_image.mode = Mode.RGB := by
  unfold process_image
  rw [hi]
  refine ⟨_, rfl, ?_, ?_, rfl, rfl⟩
  · dsimp only
    split
    · split <;>
        simp [pasteOnWhiteWithAlphaMask, pasteOnWhiteNoMask, convertRGBA] <;>
        split <;> rfl
    · rfl
  · dsimp only
    split
    · split <;>
        simp [pasteOnWhiteWithAlphaMask, pasteOnWhiteNoMask, convertRGBA] <;>
        split <;> rfl
    · rfl

end Artist

namespace Artist

/-- C4 (amended): for every successful upload, every `file_info` field
except the byte size is passed through unchanged from the validator (the
width/height keys are overwritten but with their original values); for
processed images the byte size is replaced by the length of the re-encoded
JPEG output. -/
theorem c4_file_info_passthrough (env : Env) (now : DateParts) (u : String)
    (file : PyFile) (event_id : Option String) (file_type : String) (pf : Bool)
    (p : String) (fi : FileInfo) (su st : String) (tr : List StorageEvent)
    (h : upload_file env now u file event_id file_type pf =
      (UploadOutcome.success p fi su st, tr)) :
    (fi.name = (validate_file file).1.file_info.name ∧
     fi.extension = (validate_file file).1.file_info.extension ∧
     fi.mime_type = (validate_file file).1.file_info.mime_type ∧
     fi.is_image = (validate_file file).1.file_info.is_image ∧
     fi.is_video = (validate_file file).1.file_info.is_video ∧
     fi.width = (validate_file file).1.file_info.width ∧
     fi.height = (validate_file file).1.file_info.height) ∧
    (¬ ((validate_file file).1.file_info.is_image = true ∧ pf = true) →
      fi = (validate_file file).1.file_info) ∧
    (((validate_file file).1.file_info.is_image = true ∧ pf = true) →
      ∃ r, process_image env (validate_file file).2 = Except.ok r ∧
        fi.size = env.jpegEncodedLen r.processed_image) := by
  by_cases hval : (validate_file file).1.is_valid = true
  · unfold upload_file at h
    rcases hvf : validate_file file with ⟨v, f1⟩
    rw [hvf] at h hval
    dsimp only at h hval ⊢
    simp only [hval, not_true_eq_false, if_false] at h
    by_cases him : v.file_info.is_image = true ∧ pf = true
    · obtain ⟨him1, hpf⟩ := him
      have hval2 : (validate_file file).1.is_valid = true := by rw [hvf]; exact hval
      have him2 : (validate_file file).1.file_info.is_image = true := by
        rw [hvf]; exact him1
      obtain ⟨img, hi, hfi, hsnd⟩ := validate_valid_image_shape file hval2 him2
      have hfi1 : v.file_info =
          { fileInfo_of file with width := some img.width, height := some img.height } := by
        rw [hvf] at hfi; exact hfi
      have hsnd1 : f1 = { file with pos := 0 } := by rw [hvf] at hsnd; exact hsnd
      have himg1 : f1.image = some img := by rw [hsnd1]; exact hi
      obtain ⟨r, hr, hrw, hrh, hfmt, hmode⟩ := process_image_ok env f1 img himg1
      rw [if_pos ⟨him1, hpf⟩, hr] at h
      dsimp only at h
      split at h
      · next hbk =>
        injection h with h1 h2
        obtain ⟨hp, hfieq, hsu, hst⟩ := UploadOutcome.success.inj h1.symm
        subst hfieq
        refine ⟨⟨rfl, rfl, rfl, rfl, rfl, ?_, ?_⟩, ?_, ?_⟩
        · rw [hfi1, hrw]
        · rw [hfi1, hrh]
        · intro hcon; exact absurd ⟨him1, hpf⟩ hcon
        · intro _; exact ⟨r, hr, rfl⟩
      · next hbk => simp at h
    · rw [if_neg him] at h
      dsimp only at h
      split at h
      · next hbk =>
        injection h with h1 h2
        obtain ⟨hp, hfieq, hsu, hst⟩ := UploadOutcome.success.inj h1.symm
        subst hfieq
        exact ⟨⟨rfl, rfl, rfl, rfl, rfl, rfl, rfl⟩, fun _ => rfl,
          fun him' => absurd him' him⟩
      · next hbk => simp at h
  · have hval0 : (validate_file file).1.is_valid = false := by
      cases hb : (validate_file file).1.is_valid
      · rfl
      · exact absurd hb hval
    rw [upload_invalid_fails env now u file event_id file_type pf hval0] at h
    simp at h

end Artist

namespace Artist

/-- C4 counterexample: a 1000-byte JPEG whose re-encoded output is 800
bytes is uploaded successfully, and the result `file_info.size` is 800 while
the validator produced 1000 — the record is not passed through unchanged. -/
theorem c4_counterexample :
    (validate_file jpgFile).1.file_info.size = 1000 ∧
    (upload_file envStd ⟨2026, 10⟩ "u1" jpgFile none "media" true).1 =
      UploadOutcome.success "2026/10/media/u1.jpg"
        ⟨"a.jpg", 800, "jpg", some "image/jpeg", true, false, some 2, some 1⟩
        "/media/2026/10/media/u1.jpg" "local" ∧
    (800 : Nat) ≠ 1000 :=
  ⟨by decide, by decide, by decide⟩

/-- C4 witness: the amended field-threading property evaluated on a
concrete processed image upload. -/
theorem c4_file_info_passthrough_witness :
    upload_file envStd ⟨2026, 10⟩ "u1" jpgFile none "media" true =
      (UploadOutcome.success "2026/10/media/u1.jpg"
        (⟨"a.jpg", 800, "jpg", some "image/jpeg", true, false, some 2, some 1⟩ : FileInfo)
        "/media/2026/10/media/u1.jpg" "local",
       [StorageEvent.genPath "2026/10/media/u1.jpg",
        StorageEvent.backendUpload "2026/10/media/u1.jpg",
        StorageEvent.signUrl "2026/10/media/u1.jpg"]) ∧
    (⟨"a.jpg", 800, "jpg", some "image/jpeg", true, false, some 2, some 1⟩ : FileInfo).width =
      (validate_file jpgFile).1.file_info.width :=
  ⟨by decide,
   (c4_file_info_passthrough envStd ⟨2026, 10⟩ "u1" jpgFile none "media" true
      "2026/10/media/u1.jpg"
      ⟨"a.jpg", 800, "jpg", some "image/jpeg", true, false, some 2, some 1⟩
      "/media/2026/10/media/u1.jpg" "local"
      [StorageEvent.genPath "2026/10/media/u1.jpg",
       StorageEvent.backendUpload "2026/10/media/u1.jpg",
       StorageEvent.signUrl "2026/10/media/u1.jpg"]
      (by decide)).1.2.2.2.2.2.1⟩

theorem bulk_go_counts (env : Env) (now : DateParts) (us : Nat → String)
    (ev : Option String) (ft : String) :
    ∀ (files : List PyFile) (i : Nat),
      (bulk_upload_go env now us ev ft i files).1.length +
        (bulk_upload_go env now us ev ft i files).2.length = files.length := by
  intro files
  induction files with
  | nil => intro i; rfl
  | cons f rest ih =>
    intro i
    simp only [bulk_upload_go]
    rcases hu : upload_file env now (us i) f ev ft with ⟨outcome, trc⟩
    cases outcome with
    | success p fi su st => simp only [List.length_cons]; rw [← ih (i + 1)]; omega
    | failure errs => simp only [List.length_cons]; rw [← ih (i + 1)]; omega

end Artist

namespace Artist

/-- C5: `bulk_upload` applies the single-file upload to each input file
independently, never aborts the batch, and returns counts consistent with
the outcome lists; for a batch of three files where exactly the second is
invalid it returns `success_count = 2`, `error_count = 1`, and exactly one
`failed_uploads` entry naming file 2. -/
theorem c5_bulk_isolated (env : Env) (now : DateParts) (us : Nat → String)
    (ev : Option String) (ft : String) (f1 f2 f3 : PyFile)
    (p1 : String) (fi1 : FileInfo) (su1 st1 : String)
    (p3 : String) (fi3 : FileInfo) (su3 st3 : String)
    (h1 : (upload_file env now (us 0) f1 ev ft).1 = UploadOutcome.success p1 fi1 su1 st1)
    (h2 : (validate_file f2).1.is_valid = false)
    (h3 : (upload_file env now (us 2) f3 ev ft).1 = UploadOutcome.success p3 fi3 su3 st3) :
    (∀ files : List PyFile,
      (bulk_upload env now us files ev ft).total_files = files.length ∧
      (bulk_upload env now us files ev ft).success_count =
        (bulk_upload env now us files ev ft).successful_uploads.length ∧
      (bulk_upload env now us files ev ft).error_count =
        (bulk_upload env now us files ev ft).failed_uploads.length ∧
      (bulk_upload env now us files ev ft).success_count +
        (bulk_upload env now us files ev ft).error_count = files.length) ∧
    bulk_upload env now us [f1, f2, f3] ev ft =
      { successful_uploads := [⟨f1.name, p1, fi1, su1⟩, ⟨f3.name, p3, fi3, su3⟩],
        failed_uploads := [⟨f2.name, (validate_file f2).1.errors⟩],
        total_files := 3, success_count := 2, error_count := 1 } := by
  constructor
  · intro files
    exact ⟨rfl, rfl, rfl, bulk_go_counts env now us ev ft files 0⟩
  · have h2' : upload_file env now (us 1) f2 ev ft =
        (UploadOutcome.failure (validate_file f2).1.errors, []) :=
      upload_invalid_fails env now (us 1) f2 ev ft true h2
    rcases hu1 : upload_file env now (us 0) f1 ev ft with ⟨o1, t1⟩
    rcases hu3 : upload_file env now (us 2) f3 ev ft with ⟨o3, t3⟩
    rw [hu1] at h1
    rw [hu3] at h3
    dsimp only at h1 h3
    subst h1
    subst h3
    simp [bulk_upload, bulk_upload_go, hu1, hu3, h2']

end Artist

namespace Artist

/-- C5 witness: the bulk contract evaluated on a concrete batch of two
valid videos around one invalid file. -/
theorem c5_bulk_isolated_witness :
    (upload_file envStd ⟨2026, 10⟩ (uuidStream 0) vidFile none "media").1 =
      UploadOutcome.success "2026/10/media/u0.mp4"
        ⟨"a.mp4", 100, "mp4", some "video/mp4", false, true, none, none⟩
        "/media/2026/10/media/u0.mp4" "local" ∧
    (validate_file exeFile).1.is_valid = false ∧
    (upload_file envStd ⟨2026, 10⟩ (uuidStream 2) vidFile none "media").1 =
      UploadOutcome.success "2026/10/media/u2.mp4"
        ⟨"a.mp4", 100, "mp4", some "video/mp4", false, true, none, none⟩
        "/media/2026/10/media/u2.mp4" "local" ∧
    bulk_upload envStd ⟨2026, 10⟩ uuidStream [vidFile, exeFile, vidFile] none "media" =
      { successful_uploads :=
          [⟨vidFile.name, "2026/10/media/u0.mp4",
            ⟨"a.mp4", 100, "mp4", some "video/mp4", false, true, none, none⟩,
            "/media/2026/10/media/u0.mp4"⟩,
           ⟨vidFile.name, "2026/10/media/u2.mp4",
            ⟨"a.mp4", 100, "mp4", some "video/mp4", false, true, none, none⟩,
            "/media/2026/10/media/u2.mp4"⟩],
        failed_uploads := [⟨exeFile.name, (validate_file exeFile).1.errors⟩],
        total_files := 3, success_count := 2, error_count := 1 } :=
  ⟨by decide, by decide, by decide,
   (c5_bulk_isolated envStd ⟨2026, 10⟩ uuidStream none "media" vidFile exeFile vidFile
      "2026/10/media/u0.mp4"
      ⟨"a.mp4", 100, "mp4", some "video/mp4", false, true, none, none⟩
      "/media/2026/10/media/u0.mp4" "local"
      "2026/10/media/u2.mp4"
      ⟨"a.mp4", 100, "mp4", some "video/mp4", false, true, none, none⟩
      "/media/2026/10/media/u2.mp4" "local"
      (by decide) (by decide) (by decide)).2⟩

/-- C7: watermark failures are non-fatal — when the rendering internals
raise, `add_watermark` returns the original unwatermarked image instead of
propagating the exception, and `process_image` still produces a result for
every decodable input. -/
theorem c7_watermark_failure_nonfatal (env : Env) (img : PILImage) (msg : String)
    (hen : env.settings.watermarkEnabled = true)
    (hf : env.renderWatermark img = Except.error msg) :
    add_watermark env img = img ∧
    (∀ file : PyFile, file.image.isSome →
      ∃ r, process_image env file true = Except.ok r) := by
  constructor
  · unfold add_watermark
    rw [hen, hf]
    simp
  · intro file hsome
    obtain ⟨img0, hi⟩ := Option.isSome_iff_exists.1 hsome
    unfold process_image
    rw [hi]
    exact ⟨_, rfl⟩

/-- C7 witness: the non-fatal watermark behaviour evaluated in a
deployment whose watermark renderer always raises. -/
theorem c7_watermark_failure_witness :
    envWmFail.settings.watermarkEnabled = true ∧
    envWmFail.renderWatermark laImg = Except.error "watermark failure" ∧
    (add_watermark envWmFail laImg = laImg ∧
      (∀ file : PyFile, file.image.isSome →
        ∃ r, process_image envWmFail file true = Except.ok r)) :=
  ⟨rfl, rfl, c7_watermark_failure_nonfatal envWmFail laImg "watermark failure" rfl rfl⟩

end Artist

namespace Artist

/-- C6 counterexample: a fully transparent grey (`LA`-mode) pixel survives
processing as grey `(50,50,50)` because `paste` is called without a mask for
`LA` input (line 173), whereas compositing onto an opaque white background
would give white — so not every valid image is alpha-composited onto
white. -/
theorem c6_la_counterexample :
    process_image envStd laFile true =
      Except.ok ⟨⟨Mode.RGB, 1, 1, [⟨50, 50, 50, 255⟩]⟩, 1, 1, "JPEG"⟩ ∧
    laImg.px.map whiteCompositePixel = [⟨255, 255, 255, 255⟩] ∧
    ([⟨50, 50, 50, 255⟩] : List Pixel) ≠ [⟨255, 255, 255, 255⟩] :=
  ⟨rfl, by decide, by decide⟩

/-- C6 (amended): with watermarking disabled, every valid RGBA or
palette-mode image is alpha-composited onto an opaque white background and
returned in plain RGB as JPEG; for every valid image of any mode,
`process_image` returns successfully with an RGB, fully opaque result — but
`LA` images are pasted with their alpha channel ignored rather than
composited. -/
theorem c6_process_rgb_white (env : Env)
    (hw : env.settings.watermarkEnabled = false) :
    (∀ (file : PyFile) (img : PILImage), file.image = some img →
      (img.mode = Mode.RGBA ∨ img.mode = Mode.P) →
      ∃ r, process_image env file true = Except.ok r ∧
        r.processed_image.mode = Mode.RGB ∧
        r.processed_image.px = img.px.map whiteCompositePixel ∧
        r.format = "JPEG") ∧
    (∀ (file : PyFile) (img : PILImage), file.image = some img →
      ∃ r, process_image env file true = Except.ok r ∧
        r.processed_image.mode = Mode.RGB ∧
        (∀ q ∈ r.processed_image.px, q.a = 255) ∧
        r.format = "JPEG") := by
  have hwm : ∀ i : PILImage, add_watermark env i = i := by
    intro i
    unfold add_watermark
    rw [hw]
    simp
  have hmap : ∀ l : List Pixel,
      (l.map fun p =>
          (⟨blend 255 p.r p.a, blend 255 p.g p.a, blend 255 p.b p.a, 255⟩ : Pixel)).map
        (fun p => { p with a := 255 }) = l.map whiteCompositePixel := by
    intro l
    induction l with
    | nil => rfl
    | cons p l ih => simp [ih, whiteCompositePixel]
  constructor
  · rintro file img hi (hm | hm)
    · refine ⟨⟨convertRGB (pasteOnWhiteWithAlphaMask img), img.width, img.height, "JPEG"⟩,
        ?_, rfl, ?_, rfl⟩
      · unfold process_image
        rw [hi]
        dsimp only
        simp [hm, hwm, pasteOnWhiteWithAlphaMask]
      · exact hmap img.px
    · refine ⟨⟨convertRGB (pasteOnWhiteWithAlphaMask (convertRGBA img)),
          img.width, img.height, "JPEG"⟩, ?_, rfl, ?_, rfl⟩
      · unfold process_image
        rw [hi]
        dsimp only
        simp [hm, hwm, pasteOnWhiteWithAlphaMask, convertRGBA]
      · exact hmap img.px
  · intro file img hi
    unfold process_image
    rw [hi]
    refine ⟨_, rfl, rfl, ?_, rfl⟩
    intro q hq
    rcases List.mem_map.1 hq with ⟨p, hp, rfl⟩
    rfl

/-- C6 witness: the white-compositing property evaluated on a concrete
half-transparent RGBA image. -/
theorem c6_process_rgb_white_witness :
    envStd.settings.watermarkEnabled = false ∧
    rgbaFile.image = some rgbaImg ∧
    (rgbaImg.mode = Mode.RGBA ∨ rgbaImg.mode = Mode.P) ∧
    (∃ r, process_image envStd rgbaFile true = Except.ok r ∧
      r.processed_image.mode = Mode.RGB ∧
      r.processed_image.px = rgbaImg.px.map whiteCompositePixel ∧
      r.format = "JPEG") :=
  ⟨rfl, rfl, Or.inl rfl,
   (c6_process_rgb_white envStd rfl).1 rgbaFile rgbaImg rfl (Or.inl rfl)⟩

end Artist
